import Mathlib

set_option maxRecDepth 100000

/-!
Verification of the view-change subsystem of
src/src/libNode/ViewChangeBlockProcessing.cpp (Zilliqa).

Shallow embedding:
* the DS committee (a C++ deque of (PubKey, Peer) pairs) is a Lean list of
  pairs of naturals, front = head;
* Node::UpdateDSCommiteeCompositionAfterVC, Node::VerifyVCBlockCoSignature
  and Node::ProcessVCBlock are translated line by line;
* exceptional termination (std::deque::at out of range) is modelled by the
  ProcessVCBlock embedding returning none; a normal boolean return r with
  resulting committee c is some (r, c);
* external collaborators that live outside this translation unit
  (Messenger decoding, VCBlockHeader::Serialize, Signature::Serialize,
  BitVector::SetBitVector, ConsensusCommon::NumForConsensus,
  MultiSig::AggregatePubKeys, Schnorr::Verify) are modelled from the spec,
  each marked in its doc comment.
-/

/-- A public key, opaque and equality-comparable (spec section 3). -/
abbrev PubKey := Nat

/-- A network address (Peer), opaque and equality-comparable. -/
abbrev Peer := Nat

/-- Byte sequences; each entry stands for one byte. -/
abbrev Bytes := List Nat

/-- The DS committee: ordered roster of (public key, network address)
pairs; index 0 (list head) is the current leader. -/
abbrev Committee := List (PubKey × Peer)

/-- Modelled from the spec: a Schnorr signature value, a pair of scalars,
serializable to a fixed-width byte encoding (BLOCK_SIG_SIZE). -/
structure Signature where
  challenge : Nat
  response : Nat
deriving DecidableEq, Repr

/-- The VCBlock header fields, as exposed by the getters used in
ViewChangeBlockProcessing.cpp (the class itself lives outside src/). -/
structure VCBlockHeader where
  viewChangeDSEpochNo : Nat
  viewChangeEpochNo : Nat
  viewChangeState : Nat
  candidateLeaderIndex : Nat
  candidateLeaderNetworkInfo : Peer
  candidateLeaderPubKey : PubKey
  viewChangeCounter : Nat
  timeStamp : Nat
deriving DecidableEq, Repr

/-- A view-change proof (VC block): header, co-signature parts CS1 and
CS2, and membership bitmaps B1 and B2. -/
structure VCBlock where
  header : VCBlockHeader
  cs1 : Signature
  b1 : List Bool
  cs2 : Signature
  b2 : List Bool
deriving DecidableEq, Repr

/-- Modelled from the spec: ConsensusCommon::NumForConsensus (not under
src/), the external quorum formula, a classic more-than-two-thirds BFT
quorum: the least integer at least 2N/3 (the spec's concrete scenario has
threshold 4 for N = 5). -/
def NumForConsensus (n : Nat) : Nat := (2 * n + 2) / 3

/-- Modelled from the spec: MultiSig::AggregatePubKeys (not under src/),
aggregation of a set of public keys into one aggregate key; fails (null)
exactly on an empty key set, per spec section 4.1 step 4. -/
def AggregatePubKeys (keys : List PubKey) : Option PubKey :=
  match keys with
  | [] => none
  | ks => some (ks.foldl (fun a k => a + k) 0)

/-- Fixed-width big-endian byte encoding of a natural, w bytes. -/
def natToBytesBE (w n : Nat) : Bytes :=
  (List.range w).map (fun i => n / 256 ^ (w - 1 - i) % 256)

/-- Modelled from the spec: the fixed serialized size of a VCBlockHeader
(VCBlockHeader::SIZE, not under src/): eight fixed-width 8-byte fields. -/
def VCBlockHeader_SIZE : Nat := 64

/-- Modelled from the spec: the fixed serialized size of a signature
(BLOCK_SIG_SIZE, not under src/): two 32-byte scalars. -/
def BLOCK_SIG_SIZE : Nat := 64

/-- Modelled from the spec: VCBlockHeader::Serialize (not under src/),
a fixed-width byte encoding of the header fields, VCBlockHeader_SIZE
bytes in total. -/
def headerSerialize (h : VCBlockHeader) : Bytes :=
  natToBytesBE 8 h.viewChangeDSEpochNo ++ natToBytesBE 8 h.viewChangeEpochNo
    ++ natToBytesBE 8 h.viewChangeState ++ natToBytesBE 8 h.candidateLeaderIndex
    ++ natToBytesBE 8 h.candidateLeaderNetworkInfo
    ++ natToBytesBE 8 h.candidateLeaderPubKey
    ++ natToBytesBE 8 h.viewChangeCounter ++ natToBytesBE 8 h.timeStamp

/-- Modelled from the spec: Signature::Serialize (not under src/), a
fixed-width encoding of the two scalars, BLOCK_SIG_SIZE bytes. -/
def sigSerialize (s : Signature) : Bytes :=
  natToBytesBE 32 s.challenge ++ natToBytesBE 32 s.response

/-- One packed byte out of up to eight bits, most significant bit
first. -/
def byteOfBits (bs : List Bool) : Nat :=
  (List.range 8).foldl (fun acc j => acc + (if bs.getD j false then 2 ^ (7 - j) else 0)) 0

/-- Modelled from the spec: the packed bit-vector encoding of a bitmap
(one bit per member, ceil(n/8) bytes), not one byte per boolean. -/
def packBits (bs : List Bool) : Bytes :=
  (List.range ((bs.length + 7) / 8)).map (fun i => byteOfBits ((bs.drop (8 * i)).take 8))

/-- Serialize-at-offset semantics of Serializable::Serialize and
BitVector::SetBitVector (write src into dst starting at offset, growing
dst as needed; dst shorter than offset is zero-padded first). -/
def writeAt (dst : Bytes) (offset : Nat) (src : Bytes) : Bytes :=
  let padded := dst ++ List.replicate (offset - dst.length) 0
  padded.take offset ++ src ++ padded.drop (offset + src.length)

/-- Modelled from the spec: BitVector::SetBitVector (not under src/),
writing the packed bit-vector encoding of bits into dst at offset. -/
def SetBitVector (dst : Bytes) (offset : Nat) (bits : List Bool) : Bytes :=
  writeAt dst offset (packBits bits)

/-- The canonical signed message built in Node::VerifyVCBlockCoSignature:
header serialized at offset 0, CS1 serialized at offset
VCBlockHeader_SIZE, bitmap B1 packed at offset
VCBlockHeader_SIZE + BLOCK_SIG_SIZE. -/
def constructMessage (vcblock : VCBlock) : Bytes :=
  let m1 := writeAt [] 0 (headerSerialize vcblock.header)
  let m2 := writeAt m1 VCBlockHeader_SIZE (sigSerialize vcblock.cs1)
  SetBitVector m2 (VCBlockHeader_SIZE + BLOCK_SIG_SIZE) vcblock.b1

/-- Injective-enough encoding of a byte sequence into one scalar, used
only inside the idealized signature model below. -/
def encodeBytes (msg : Bytes) : Nat :=
  msg.foldl (fun a b => a * 256 + b + 1) 1

/-- Modelled from the spec: the signing side of the idealized signature
scheme; a signature produced over msg with (aggregate) key. -/
def SchnorrSign (msg : Bytes) (key : PubKey) : Signature :=
  ⟨encodeBytes msg, key⟩

/-- Modelled from the spec: Schnorr::Verify (not under src/), the
deterministic, side-effect-free verification primitive; idealized: a
signature verifies exactly for the message and key it was produced
over. -/
def SchnorrVerify (msg : Bytes) (sig : Signature) (key : PubKey) : Bool :=
  sig = SchnorrSign msg key

/-- The signer-key set built in Node::VerifyVCBlockCoSignature: iterate
the committee in order and keep the public key of every index whose B2
bit is set (the size guard has already ensured the lengths agree). -/
def selectSignerKeys (committee : Committee) (b2 : List Bool) : List PubKey :=
  ((committee.zip b2).filter (fun p => p.2)).map (fun p => p.1.1)

/-- Number of set bits of a bitmap. -/
def countSetBits (b : List Bool) : Nat :=
  (b.filter (fun x => x)).length

/-- Whether the block's CS2 verifies over the block's own canonical
message against the key aggregated from the committee members marked in
B2 (false when aggregation fails). -/
def cosigValid (committee : Committee) (vcblock : VCBlock) : Bool :=
  match AggregatePubKeys (selectSignerKeys committee vcblock.b2) with
  | none => false
  | some aggregatedKey => SchnorrVerify (constructMessage vcblock) vcblock.cs2 aggregatedKey

/-- Node::VerifyVCBlockCoSignature: size guard on B2, signer selection
and count (the count in the source increments exactly when a key is
collected, so it equals the length of the selected key list), exact-count
quorum check, key aggregation, and Schnorr verification of CS2 over the
canonical message. -/
def VerifyVCBlockCoSignature (committee : Committee) (vcblock : VCBlock) : Bool :=
  if committee.length ≠ vcblock.b2.length then
    false
  else if (selectSignerKeys committee vcblock.b2).length
      ≠ NumForConsensus vcblock.b2.length then
    false
  else
    match AggregatePubKeys (selectSignerKeys committee vcblock.b2) with
    | none => false
    | some aggregatedKey =>
        SchnorrVerify (constructMessage vcblock) vcblock.cs2 aggregatedKey

/-- Node::UpdateDSCommiteeCompositionAfterVC: push a copy of the front
member to the back, then pop the front (one left rotation step). The
source never reaches this on an empty deque; the [] branch is inert. -/
def UpdateDSCommiteeCompositionAfterVC (committee : Committee) : Committee :=
  match committee with
  | [] => []
  | x :: xs => xs ++ [x]

/-- The rotation loop of Node::ProcessVCBlock: apply the one-step
rotation newCandidateLeader times. -/
def rotateLoop (committee : Committee) : Nat → Committee
  | 0 => committee
  | Nat.succ k => rotateLoop (UpdateDSCommiteeCompositionAfterVC committee) k

/-- The candidate-index resolution step of Node::ProcessVCBlock: the
view-change counter is reduced modulo the committee size only when it
exceeds the size strictly. -/
def resolveCandidateIndex (counter committeeSize : Nat) : Nat :=
  if counter > committeeSize then counter % committeeSize else counter

/-- Node::ProcessVCBlock. The decoded argument models the result of
Messenger::GetNodeVCBlock (modelled from the spec: wire deserialization,
not under src/; none = decode failure). Result none models the
std::out_of_range exception thrown by deque::at; some (r, c) models a
normal return of boolean r with resulting committee c. -/
def ProcessVCBlock (decoded : Option VCBlock) (currentEpochNum : Nat)
    (committee : Committee) : Option (Bool × Committee) :=
  match decoded with
  | none => some (false, committee)
  | some vcblock =>
    if vcblock.header.viewChangeEpochNo ≠ currentEpochNum then
      some (false, committee)
    else
      match committee.get? (resolveCandidateIndex vcblock.header.viewChangeCounter
          committee.length) with
      | none => none
      | some member =>
        if ¬(member.2 = vcblock.header.candidateLeaderNetworkInfo
              ∧ member.1 = vcblock.header.candidateLeaderPubKey) then
          some (false, committee)
        else if ¬(VerifyVCBlockCoSignature committee vcblock = true) then
          some (false, committee)
        else
          some (true, rotateLoop committee
            (resolveCandidateIndex vcblock.header.viewChangeCounter committee.length))

/-- A view-change block whose CS2 is produced, in the idealized scheme,
over the block's own canonical message with the key aggregated from the
members of the given committee marked in b2 (used to build concrete
accepted proofs). -/
def mkBlock (h : VCBlockHeader) (cs1 : Signature) (b1 b2 : List Bool)
    (committee : Committee) : VCBlock :=
  match AggregatePubKeys (selectSignerKeys committee b2) with
  | none => ⟨h, cs1, b1, ⟨0, 0⟩, b2⟩
  | some k => ⟨h, cs1, b1, SchnorrSign (constructMessage ⟨h, cs1, b1, ⟨0, 0⟩, b2⟩) k, b2⟩

/-- A concrete five-member committee (the spec's N = 5 scenario). -/
def committee5 : Committee := [(1, 101), (2, 102), (3, 103), (4, 104), (5, 105)]

/-- committee5 rotated left twice. -/
def committee5r2 : Committee := [(3, 103), (4, 104), (5, 105), (1, 101), (2, 102)]

/-- A bitmap with exactly NumForConsensus 5 = 4 bits set. -/
def b2exact : List Bool := [true, true, true, true, false]

/-- A bitmap with all five bits set (one more than the threshold). -/
def b2five : List Bool := [true, true, true, true, true]

/-- An arbitrary B1 bitmap of length five. -/
def b1five : List Bool := [true, false, true, false, true]

/-- An arbitrary CS1 value. -/
def cs1c : Signature := ⟨11, 22⟩

/-- Header for epoch 7, counter 0, candidate = committee5 member 0. -/
def hdr0 : VCBlockHeader := ⟨3, 7, 9, 0, 101, 1, 0, 555⟩

/-- Like hdr0 but with a different view-change state tag and timestamp. -/
def hdrY : VCBlockHeader := ⟨3, 7, 10, 0, 101, 1, 0, 999⟩

/-- Header for epoch 7, counter 7 (wraps to 2), candidate = committee5
member 2. -/
def hdr7 : VCBlockHeader := ⟨3, 7, 9, 2, 103, 3, 7, 555⟩

/-- Header for epoch 7, counter 4, candidate = committee5r2 member 4. -/
def hdrB : VCBlockHeader := ⟨3, 7, 9, 4, 102, 2, 4, 556⟩

/-- Header for epoch 7, counter 1 = (7 + 4) % 5, candidate = committee5
member 1. -/
def hdrC : VCBlockHeader := ⟨3, 7, 9, 1, 102, 2, 1, 557⟩

/-- A fully valid proof for committee5 with counter 0. -/
def blk0 : VCBlock := mkBlock hdr0 cs1c b1five b2exact committee5

/-- A fully valid proof for committee5 differing from blk0 only in the
state tag, the timestamp, and (consequently) its own co-signature. -/
def blkY : VCBlock := mkBlock hdrY cs1c b1five b2exact committee5

/-- A fully valid proof for committee5 with counter 7 (> 5, wraps). -/
def blk7 : VCBlock := mkBlock hdr7 cs1c b1five b2exact committee5

/-- A fully valid proof for committee5r2 with counter 4. -/
def blkB : VCBlock := mkBlock hdrB cs1c b1five b2exact committee5r2

/-- A fully valid proof for committee5 with counter 1. -/
def blkC : VCBlock := mkBlock hdrC cs1c b1five b2exact committee5

/-- A proof for committee5 that is valid in every respect except that it
carries five signers in B2, one more than the exact threshold. -/
def blkAbove : VCBlock := mkBlock hdr0 cs1c b1five b2five committee5

/-- A proof for committee5 that is valid in every respect except that
its B1 bitmap has length 3 instead of 5. -/
def blkBadB1 : VCBlock := mkBlock hdr0 cs1c [true, false, true] b2exact committee5

/-- A proof whose B2 bitmap has length 3 instead of 5. -/
def blkShortB2 : VCBlock := ⟨hdr0, cs1c, b1five, ⟨1, 2⟩, [true, true, true]⟩

/-- A concrete two-member committee. -/
def committee2 : Committee := [(1, 101), (2, 102)]

/-- A proof for committee2 whose counter equals the committee size
exactly (epoch matches, co-signature well formed). -/
def blkN : VCBlock := mkBlock ⟨3, 7, 9, 2, 101, 1, 2, 555⟩ cs1c [true, true] [true, true] committee2

/-- One rotation step is a left list rotation by one. -/
lemma update_eq_rotate (c : Committee) :
    UpdateDSCommiteeCompositionAfterVC c = c.rotate 1 := by
  cases c with
  | nil => rfl
  | cons x xs =>
    show xs ++ [x] = (x :: xs).rotate (0 + 1)
    rw [List.rotate_cons_succ, List.rotate_zero]

/-- The rotation loop applied k times is a left rotation by k. -/
lemma rotateLoop_eq_rotate : ∀ (k : Nat) (c : Committee), rotateLoop c k = c.rotate k
  | 0, c => by rw [rotateLoop, List.rotate_zero]
  | Nat.succ k, c => by
    rw [rotateLoop, rotateLoop_eq_rotate k, update_eq_rotate, List.rotate_rotate,
      Nat.add_comm]

/-- With matching lengths, the number of selected signer keys equals the
number of set bits of the bitmap. -/
lemma selectSignerKeys_count : ∀ (c : Committee) (b : List Bool),
    c.length = b.length → (selectSignerKeys c b).length = countSetBits b
  | [], [], _ => rfl
  | [], _ :: _, h => absurd h (by simp)
  | _ :: _, [], h => absurd h (by simp)
  | m :: c, x :: b, h => by
    have ih := selectSignerKeys_count c b (by simpa using h)
    cases x with
    | true =>
      simp only [selectSignerKeys, countSetBits, List.zip_cons_cons, List.filter_cons]
        at ih ⊢
      simpa using ih
    | false =>
      simp only [selectSignerKeys, countSetBits, List.zip_cons_cons, List.filter_cons]
        at ih ⊢
      simpa using ih

/-- Unfolding of a successful ProcessVCBlock run: acceptance implies the
epoch matched, the co-signature verified, and the resulting committee is
the original rotated left by counter mod size. -/
lemma processVCBlock_accept (c c' : Committee) (e : Nat) (blk : VCBlock)
    (h : ProcessVCBlock (some blk) e c = some (true, c')) :
    blk.header.viewChangeEpochNo = e
    ∧ VerifyVCBlockCoSignature c blk = true
    ∧ c' = c.rotate (blk.header.viewChangeCounter % c.length) := by
  simp only [ProcessVCBlock] at h
  split at h
  · simp at h
  rename_i he
  push_neg at he
  split at h
  · simp at h
  rename_i m hg
  split at h
  · simp at h
  rename_i hm
  split at h
  · simp at h
  rename_i hv
  rw [not_not] at hv
  refine ⟨he, hv, ?_⟩
  have hc' : c' = rotateLoop c (resolveCandidateIndex blk.header.viewChangeCounter c.length) := by
    simp at h
    exact h.symm
  rw [hc', rotateLoop_eq_rotate, resolveCandidateIndex]
  by_cases hgt : blk.header.viewChangeCounter > c.length
  · rw [if_pos hgt]
  · rw [if_neg hgt, ← List.rotate_mod]

/-- Any run of ProcessVCBlock that returns false leaves the committee
untouched. -/
lemma processVCBlock_reject (decoded : Option VCBlock) (e : Nat) (c r : Committee)
    (h : ProcessVCBlock decoded e c = some (false, r)) : r = c := by
  cases decoded with
  | none =>
    simp only [ProcessVCBlock] at h
    simp at h
    exact h.symm
  | some blk =>
    simp only [ProcessVCBlock] at h
    split at h
    · simp at h
      exact h.symm
    split at h
    · simp at h
    split at h
    · simp at h
      exact h.symm
    split at h
    · simp at h
      exact h.symm
    · simp at h

/-- A B2 bitmap whose length differs from the committee size makes the
co-signature verification fail at its first guard. -/
lemma verify_b2_mismatch (c : Committee) (blk : VCBlock)
    (h : blk.b2.length ≠ c.length) :
    VerifyVCBlockCoSignature c blk = false := by
  rw [VerifyVCBlockCoSignature, if_pos (Ne.symm h)]

/-- A signer count different from the quorum formula value makes the
co-signature verification fail at its second guard. -/
lemma verify_count_ne (c : Committee) (blk : VCBlock)
    (hb2 : blk.b2.length = c.length)
    (hne : countSetBits blk.b2 ≠ NumForConsensus c.length) :
    VerifyVCBlockCoSignature c blk = false := by
  have hsel := selectSignerKeys_count c blk.b2 hb2.symm
  rw [VerifyVCBlockCoSignature, if_neg (not_ne_iff.mpr hb2.symm),
    if_pos (by rw [hsel, hb2]; exact hne)]

/-- When the size guard and the exact-count quorum guard pass and the
co-signature verifies over the block's own message, the verification
succeeds; no condition on B1 is involved. -/
lemma verify_of_checks (c : Committee) (blk : VCBlock)
    (hb2 : blk.b2.length = c.length)
    (hcount : countSetBits blk.b2 = NumForConsensus c.length)
    (hsig : cosigValid c blk = true) :
    VerifyVCBlockCoSignature c blk = true := by
  have hsel := selectSignerKeys_count c blk.b2 hb2.symm
  rw [VerifyVCBlockCoSignature, if_neg (not_ne_iff.mpr hb2.symm),
    if_neg (not_ne_iff.mpr (by rw [hsel, hb2, hcount]))]
  simp only [cosigValid] at hsig
  exact hsig

/-- C1 (corrected): the source checks the signer count with an exact
equality, not a lower bound. Acceptance of the co-signature requires the
number of set bits of B2 to be exactly NumForConsensus(N) (which implies
the at-least-threshold reading of the claim); a signer count below the
threshold is rejected; a signer count exactly at the threshold with all
other checks passing is accepted. The above-threshold part of the claim
is refuted separately. -/
theorem C1_quorum_exact_count (c : Committee) (blk : VCBlock)
    (hlen : blk.b2.length = c.length) :
    (VerifyVCBlockCoSignature c blk = true →
      countSetBits blk.b2 = NumForConsensus c.length)
    ∧ (countSetBits blk.b2 < NumForConsensus c.length →
      VerifyVCBlockCoSignature c blk = false)
    ∧ (countSetBits blk.b2 = NumForConsensus c.length → cosigValid c blk = true →
      VerifyVCBlockCoSignature c blk = true) := by
  refine ⟨?_, ?_, fun hc hs => verify_of_checks c blk hlen hc hs⟩
  · intro hacc
    by_contra hne
    rw [verify_count_ne c blk hlen hne] at hacc
    cases hacc
  · intro hlt
    exact verify_count_ne c blk hlen (Nat.ne_of_lt hlt)

/-- C1 counterexample: a proof for the five-member committee whose B2
has five signers (one above the threshold of four), with the bitmap the
right size and the co-signature valid over the block's own message, is
nevertheless rejected by VerifyVCBlockCoSignature. -/
theorem C1_above_threshold_rejected :
    blkAbove.b2.length = committee5.length
    ∧ NumForConsensus committee5.length < countSetBits blkAbove.b2
    ∧ cosigValid committee5 blkAbove = true
    ∧ VerifyVCBlockCoSignature committee5 blkAbove = false := by decide

/-- C1 witness: the exact-threshold proof blk0 is accepted. -/
theorem C1_quorum_exact_count_witness :
    VerifyVCBlockCoSignature committee5 blk0 = true :=
  (C1_quorum_exact_count committee5 blk0 (by decide)).2.2 (by decide) (by decide)

/-- C2 (code bug): with the view-change counter exactly equal to the
committee size, the wraparound guard (a strict greater-than) does not
reduce the index, and the committee lookup deque::at(size) throws
std::out_of_range (modelled as none) instead of yielding a boolean
outcome, for a successfully decoded proof on a non-empty committee with
a matching epoch. -/
theorem C2_counter_eq_size_throws :
    blkN.header.viewChangeCounter = committee2.length
    ∧ blkN.header.viewChangeEpochNo = 7
    ∧ 1 ≤ committee2.length
    ∧ ProcessVCBlock (some blkN) 7 committee2 = none := by decide

/-- C3: for every committee of size at least one and every accepted
proof with counter k, the resulting committee is the original rotated
left by k mod N (one front-to-back step per unit, order preserved), with
no other mutation; a resolved counter of zero performs zero rotation
steps. -/
theorem C3_accept_rotates (c c' : Committee) (e : Nat) (blk : VCBlock)
    (hN : 1 ≤ c.length)
    (h : ProcessVCBlock (some blk) e c = some (true, c')) :
    c' = c.rotate (blk.header.viewChangeCounter % c.length) :=
  (processVCBlock_accept c c' e blk h).2.2

/-- C3 witness: the accepted proof blk7 (counter 7 on a committee of
five) rotates the committee left by 7 mod 5 = 2. -/
theorem C3_accept_rotates_witness :
    ([(3, 103), (4, 104), (5, 105), (1, 101), (2, 102)] : Committee)
      = committee5.rotate (blk7.header.viewChangeCounter % committee5.length) :=
  C3_accept_rotates committee5 _ 7 blk7 (by decide) (by decide)

/-- C4: processing an accepted proof with counter k1 and then an
accepted proof with counter k2 yields the same committee as processing a
single accepted proof with counter (k1 + k2) mod N. -/
theorem C4_rotation_composes (c c1 c2 c3 : Committee) (e1 e2 e3 : Nat)
    (bA bB bC : VCBlock)
    (hA : ProcessVCBlock (some bA) e1 c = some (true, c1))
    (hB : ProcessVCBlock (some bB) e2 c1 = some (true, c2))
    (hC : ProcessVCBlock (some bC) e3 c = some (true, c3))
    (hk : bC.header.viewChangeCounter
      = (bA.header.viewChangeCounter + bB.header.viewChangeCounter) % c.length) :
    c2 = c3 := by
  have r1 := (processVCBlock_accept c c1 e1 bA hA).2.2
  have r2 := (processVCBlock_accept c1 c2 e2 bB hB).2.2
  have r3 := (processVCBlock_accept c c3 e3 bC hC).2.2
  rw [r1] at r2
  rw [List.length_rotate] at r2
  rw [List.rotate_rotate] at r2
  rw [r2, r3, hk, List.rotate_mod, Nat.add_mod, List.rotate_mod]

/-- C4 witness: counter 7 then counter 4 on the five-member committee
equals a single counter (7 + 4) mod 5 = 1. -/
theorem C4_rotation_composes_witness :
    ([(2, 102), (3, 103), (4, 104), (5, 105), (1, 101)] : Committee)
      = [(2, 102), (3, 103), (4, 104), (5, 105), (1, 101)] :=
  C4_rotation_composes committee5 committee5r2 _ _ 7 7 7 blk7 blkB blkC
    (by decide) (by decide) (by decide) (by decide)

/-- C5: every run of ProcessVCBlock that returns false (decode failure,
epoch mismatch, candidate mismatch, or any co-signature rejection)
leaves the committee exactly as it was. -/
theorem C5_reject_unchanged (decoded : Option VCBlock) (e : Nat) (c r : Committee)
    (h : ProcessVCBlock decoded e c = some (false, r)) : r = c :=
  processVCBlock_reject decoded e c r h

/-- C5 witness: a proof rejected for a B2 size mismatch leaves the
committee unchanged. -/
theorem C5_reject_unchanged_witness : committee5 = committee5 :=
  C5_reject_unchanged (some blkShortB2) 7 committee5 committee5 (by decide)

/-- C6: a B2 bitmap whose length differs from the committee size makes
the co-signature verification return false, regardless of every other
field, and rules out acceptance by ProcessVCBlock. -/
theorem C6_b2_length_mismatch_rejects (c : Committee) (blk : VCBlock)
    (h : blk.b2.length ≠ c.length) :
    VerifyVCBlockCoSignature c blk = false
    ∧ ∀ (e : Nat) (c' : Committee), ProcessVCBlock (some blk) e c ≠ some (true, c') := by
  refine ⟨verify_b2_mismatch c blk h, fun e c' hacc => ?_⟩
  have hv := (processVCBlock_accept c c' e blk hacc).2.1
  rw [verify_b2_mismatch c blk h] at hv
  cases hv

/-- C6 witness: the proof with a three-bit B2 against the five-member
committee fails verification. -/
theorem C6_b2_length_mismatch_rejects_witness :
    VerifyVCBlockCoSignature committee5 blkShortB2 = false :=
  (C6_b2_length_mismatch_rejects committee5 blkShortB2 (by decide)).1

/-- C7: an epoch mismatch makes ProcessVCBlock return false with the
committee untouched, before and independently of signature
verification (the co-signature fields are arbitrary here). -/
theorem C7_epoch_mismatch_rejects (c : Committee) (e : Nat) (blk : VCBlock)
    (h : blk.header.viewChangeEpochNo ≠ e) :
    ProcessVCBlock (some blk) e c = some (false, c) := by
  simp only [ProcessVCBlock, if_pos h]

/-- C7 witness: blk0 carries a co-signature valid over its own message,
yet is rejected at local epoch 8 with no rotation. -/
theorem C7_epoch_mismatch_rejects_witness :
    cosigValid committee5 blk0 = true
    ∧ ProcessVCBlock (some blk0) 8 committee5 = some (false, committee5) :=
  ⟨by decide, C7_epoch_mismatch_rejects committee5 8 blk0 (by decide)⟩

/-- The fixed-width byte encoding has the stated width. -/
lemma natToBytesBE_length (w n : Nat) : (natToBytesBE w n).length = w := by
  simp [natToBytesBE]

/-- The serialized header always occupies VCBlockHeader_SIZE bytes. -/
lemma headerSerialize_length (h : VCBlockHeader) :
    (headerSerialize h).length = VCBlockHeader_SIZE := by
  simp [headerSerialize, natToBytesBE, VCBlockHeader_SIZE]

/-- A serialized signature always occupies BLOCK_SIG_SIZE bytes. -/
lemma sigSerialize_length (s : Signature) :
    (sigSerialize s).length = BLOCK_SIG_SIZE := by
  simp [sigSerialize, natToBytesBE, BLOCK_SIG_SIZE]

/-- Writing at an offset equal to the current length is appending. -/
lemma writeAt_exact (dst : Bytes) (offset : Nat) (src : Bytes)
    (h : dst.length = offset) :
    writeAt dst offset src = dst ++ src := by
  simp only [writeAt]
  rw [show offset - dst.length = 0 by omega]
  simp only [List.replicate_zero, List.append_nil]
  rw [List.take_of_length_le (by omega), List.drop_eq_nil_of_le (by omega),
    List.append_nil]

/-- C8: the canonical signed message is exactly the serialized header,
followed at offset VCBlockHeader_SIZE by the serialized CS1, followed at
offset VCBlockHeader_SIZE + BLOCK_SIG_SIZE by B1 packed as a bit-vector
(ceil(n/8) bytes, not one byte per boolean). -/
theorem C8_message_layout (blk : VCBlock) :
    constructMessage blk
      = headerSerialize blk.header ++ (sigSerialize blk.cs1 ++ packBits blk.b1)
    ∧ (constructMessage blk).take VCBlockHeader_SIZE = headerSerialize blk.header
    ∧ ((constructMessage blk).drop VCBlockHeader_SIZE).take BLOCK_SIG_SIZE
      = sigSerialize blk.cs1
    ∧ (constructMessage blk).drop (VCBlockHeader_SIZE + BLOCK_SIG_SIZE)
      = packBits blk.b1
    ∧ (packBits blk.b1).length = (blk.b1.length + 7) / 8 := by
  have hhs := headerSerialize_length blk.header
  have hss := sigSerialize_length blk.cs1
  have hps : (headerSerialize blk.header ++ sigSerialize blk.cs1).length
      = VCBlockHeader_SIZE + BLOCK_SIG_SIZE := by
    rw [List.length_append, hhs, hss]
  have hms : constructMessage blk
      = (headerSerialize blk.header ++ sigSerialize blk.cs1) ++ packBits blk.b1 := by
    simp only [constructMessage, SetBitVector]
    rw [writeAt_exact [] 0 _ rfl, List.nil_append,
      writeAt_exact _ _ _ hhs, writeAt_exact _ _ _ hps]
  refine ⟨by rw [hms, List.append_assoc], ?_, ?_, ?_, by simp [packBits]⟩
  · rw [hms, List.append_assoc, List.take_left' hhs]
  · rw [hms, List.append_assoc, List.drop_left' hhs, List.take_left' hss]
  · rw [hms, List.drop_left' hps]

/-- C9 counterexample: a proof whose B1 bitmap has length 3 against the
five-member committee is nevertheless accepted by ProcessVCBlock (its
co-signature covers its own short B1), so a B1 length mismatch is not
rejected. -/
theorem C9_short_b1_accepted :
    blkBadB1.b1.length ≠ committee5.length
    ∧ ProcessVCBlock (some blkBadB1) 7 committee5 = some (true, committee5) := by
  decide

/-- C9 (corrected): only B2's length is checked against the committee
size; B1's length is never validated. Verification succeeds whenever the
B2 size guard, the exact-count quorum guard and the co-signature check
pass, with no condition whatsoever on the length of B1 (which enters
only as bytes of the signed message). -/
theorem C9_b1_length_unchecked (c : Committee) (blk : VCBlock)
    (hb2 : blk.b2.length = c.length)
    (hcount : countSetBits blk.b2 = NumForConsensus c.length)
    (hsig : cosigValid c blk = true) :
    VerifyVCBlockCoSignature c blk = true :=
  verify_of_checks c blk hb2 hcount hsig

/-- C9 witness: the proof with the three-bit B1 passes verification
against the five-member committee. -/
theorem C9_b1_length_unchecked_witness :
    VerifyVCBlockCoSignature committee5 blkBadB1 = true :=
  C9_b1_length_unchecked committee5 blkBadB1 (by decide) (by decide) (by decide)

/-- C10: ProcessVCBlock never validates the view-change state tag or the
timestamp: two decoded proofs that differ only in those two header
fields (and in their own co-signatures, each valid over its own
canonical message) receive identical outcomes, including the resulting
committee. -/
theorem C10_state_timestamp_not_validated (e : Nat) (c : Committee)
    (hA hB : VCBlockHeader) (cs1 cs2A cs2B : Signature) (b1 b2 : List Bool)
    (hds : hA.viewChangeDSEpochNo = hB.viewChangeDSEpochNo)
    (hep : hA.viewChangeEpochNo = hB.viewChangeEpochNo)
    (hidx : hA.candidateLeaderIndex = hB.candidateLeaderIndex)
    (hnet : hA.candidateLeaderNetworkInfo = hB.candidateLeaderNetworkInfo)
    (hpk : hA.candidateLeaderPubKey = hB.candidateLeaderPubKey)
    (hctr : hA.viewChangeCounter = hB.viewChangeCounter)
    (hsA : cosigValid c ⟨hA, cs1, b1, cs2A, b2⟩ = true)
    (hsB : cosigValid c ⟨hB, cs1, b1, cs2B, b2⟩ = true) :
    ProcessVCBlock (some ⟨hA, cs1, b1, cs2A, b2⟩) e c
      = ProcessVCBlock (some ⟨hB, cs1, b1, cs2B, b2⟩) e c := by
  have hver : VerifyVCBlockCoSignature c ⟨hA, cs1, b1, cs2A, b2⟩
      = VerifyVCBlockCoSignature c ⟨hB, cs1, b1, cs2B, b2⟩ := by
    by_cases h1 : b2.length = c.length
    · by_cases h2 : countSetBits b2 = NumForConsensus c.length
      · rw [verify_of_checks c _ h1 h2 hsA, verify_of_checks c _ h1 h2 hsB]
      · rw [verify_count_ne c _ h1 h2, verify_count_ne c _ h1 h2]
    · rw [verify_b2_mismatch c _ h1, verify_b2_mismatch c _ h1]
  simp only [ProcessVCBlock]
  rw [hep, hctr, hnet, hpk, hver]

/-- C10 witness: two concrete proofs differing only in the state tag
(9 against 10) and the timestamp (555 against 999), each carrying its
own valid co-signature, produce identical outcomes. -/
theorem C10_state_timestamp_not_validated_witness :
    ProcessVCBlock (some ⟨hdr0, cs1c, b1five, blk0.cs2, b2exact⟩) 7 committee5
      = ProcessVCBlock (some ⟨hdrY, cs1c, b1five, blkY.cs2, b2exact⟩) 7 committee5 :=
  C10_state_timestamp_not_validated 7 committee5 hdr0 hdrY cs1c blk0.cs2 blkY.cs2
    b1five b2exact rfl rfl rfl rfl rfl rfl (by decide) (by decide)
